import Mathlib

/-!
Shallow embedding of `graphapi-dmarc-mail.py` (jbouwh/GRAPH-API).

Modelling conventions:
- Byte strings are `List Nat`; attachment payloads carry the bytes already
  base64-decoded (`raw` stands for `base64.b64decode(attachment['contentBytes'])`,
  a bijective transport encoding that no claim depends on).
- Filenames are `Option (List Char)` (`None` models an absent name); the Python
  builtin `str.split('.')` is embedded as the executable `splitDot`.
- The external compression libraries are uninterpreted oracles:
  `gz : List Nat → Option (List Nat)` models `gzip.decompress` (`some` = the
  decompressed bytes, `none` = the call raises, caught by the source's
  `try/except`), and `zp : List Nat → Option (List ZipEntry)` models parsing the
  byte stream with `ZipFile` (`some entries` = the archive's `filelist` together
  with each member's readable contents, `none` = any archive-parsing error,
  likewise caught). `ZipFile.read(name)` is modelled by `zipRead` (first entry
  whose filename matches).
- HTTP traffic is an environment of pre-determined responses: each GET endpoint
  is a `(status, parsed value)` pair, the token endpoint response is
  `Option (String × Int)` (`none` = non-200), and DELETE endpoints are a
  status per message id. The second component of `api_get_request` /
  `api_delete_request` records whether an HTTP request was actually issued.
- Python's falsy test `not self._token` / truthiness `self._folder_id` on
  optional strings is `strFalsy` (true for `None` and for the empty string).
- An uncaught Python exception is `Except.error` with the exception text;
  normal returns are `Except.ok`.
-/

namespace GraphDmarc

/-- Embeds the Python builtin `name.split('.')` on a list of characters:
`splitDot "a.b" = ["a","b"]`, `splitDot "abc" = ["abc"]`, `splitDot "" = [""]`. -/
def splitDot : List Char → List (List Char)
  | [] => [[]]
  | c :: cs =>
    if c = '.' then [] :: splitDot cs
    else
      match splitDot cs with
      | [] => [[c]]
      | h :: t => (c :: h) :: t

/-- `get_extention` (lines 104-108): `None` for an absent name, otherwise the
last element of `name.split('.')` (`parts[len(parts) - 1]`). -/
def get_extention (name : Option (List Char)) : Option (List Char) :=
  match name with
  | none => none
  | some n => some ((splitDot n).getLastD [])

/-- One member of a parsed zip archive: its filename (`ZipInfo.filename`) and
its readable decompressed contents. -/
structure ZipEntry where
  filename : List Char
  content : List Nat

/-- Models `ZipFile.read(fname)`: the contents of the entry whose filename
matches. -/
def zipRead : List ZipEntry → List Char → Option (List Nat)
  | [], _ => none
  | f :: rest, fname => if f.filename = fname then some f.content else zipRead rest fname

/-- An attachment as consumed by `get_dmarc_xml`: `name`, `contentType`, and
`raw` = the base64-decoded `contentBytes`. -/
structure Attachment where
  name : Option (List Char)
  contentType : String
  raw : List Nat

/-- `get_dmarc_xml` (lines 110-132), relative to the compression oracles `gz`
and `zp`. The source computes `ext = get_extention(attachment['name'])` once;
it is inlined here (the call is pure). The gzip branch returns
`gzip.decompress(raw_data)` with any exception mapped to `None`; the zip branch
opens the archive, fails on an empty `filelist`, looks only at the first listed
entry, and returns `zipfile.read` of its name exactly when that entry's
extension is `"xml"`; all other paths return `None`. -/
def get_dmarc_xml (gz : List Nat → Option (List Nat))
    (zp : List Nat → Option (List ZipEntry)) (a : Attachment) : Option (List Nat) :=
  if a.contentType = "application/gzip" ∨ get_extention a.name = some ['g', 'z']
      ∨ get_extention a.name = some ['g', 'z', 'i', 'p'] then
    gz a.raw
  else if a.contentType = "application/zip" ∨ get_extention a.name = some ['z', 'i', 'p'] then
    match zp a.raw with
    | none => none
    | some files =>
      match files with
      | [] => none
      | f :: _ =>
        if get_extention (some f.filename) = some ['x', 'm', 'l'] then
          zipRead files f.filename
        else none
  else none

/-- Python falsiness of an optional string: `not s` is true for `None` and for
the empty string. -/
def strFalsy : Option String → Bool
  | none => true
  | some s => decide (s = "")

/-- A mail folder as returned by the folder-listing endpoint. -/
structure Folder where
  displayName : String
  id : String

/-- A mail message as returned by the message-listing endpoint. -/
structure Message where
  id : String
  receivedDateTime : String
  subject : String

/-- The mutable fields of a `Graph` instance together with the configured
`mailbox_folder` setting. -/
structure GraphState where
  token : Option String
  tokenExpires : Option Int
  folderId : Option String
  mailbox_folder : String

/-- The environment of external responses a run observes. `tokenResp` is the
identity endpoint's answer (`some (access_token, expires_in)` on HTTP 200,
`none` otherwise); the GET endpoints each yield `(status, parsed "value")`;
`delStatus` gives the DELETE status per message id. -/
structure Env where
  tokenResp : Option (String × Int)
  foldersResp : Nat × List Folder
  messagesResp : Nat × List Message
  attachmentsResp : String → Nat × List Attachment
  gz : List Nat → Option (List Nat)
  zp : List Nat → Option (List ZipEntry)
  delStatus : String → Nat

/-- `_get_fresh_token` (lines 47-61): on HTTP 200 store the token and
`now + expires_in`; otherwise set `_token = None` (leaving `_token_expires`
unchanged). -/
def get_fresh_token (resp : Option (String × Int)) (now : Int) (s : GraphState) : GraphState :=
  match resp with
  | some td => { s with token := some td.1, tokenExpires := some (now + td.2) }
  | none => { s with token := none }

/-- The refresh condition of `get_token` (line 63), exactly as written:
`self._token is None or self._token_expires + timedelta(seconds=300) >
datetime.now()`. When a token is present but `_token_expires` is `None` the
source would raise a `TypeError`; that state is unreachable from the
constructor (both fields start `None` and are only set together), and is
modelled as `true`. -/
def tokenRefreshCond (now : Int) (s : GraphState) : Bool :=
  match s.token, s.tokenExpires with
  | none, _ => true
  | some _, some e => decide (e + 300 > now)
  | some _, none => true

/-- `get_token` (lines 44-64). The `Nat` counts the token requests issued by
this call (1 when `_get_fresh_token` runs, else 0). -/
def get_token (resp : Option (String × Int)) (now : Int) (s : GraphState) : GraphState × Nat :=
  if tokenRefreshCond now s then (get_fresh_token resp now s, 1) else (s, 0)

/-- `api_get_request` (lines 66-74), for a response whose parsed `"value"` has
type `α`. First component: the returned value (`None` without a token or on a
non-200 status). Second component: whether an HTTP request was issued. -/
def api_get_request {α : Type} (token : Option String) (resp : Nat × α) : Option α × Bool :=
  if strFalsy token then (none, false)
  else if resp.1 = 200 then (some resp.2, true)
  else (none, true)

/-- `api_delete_request` (lines 76-84). First component: `true` exactly on an
HTTP 204 response. Second component: whether an HTTP request was issued. -/
def api_delete_request (token : Option String) (status : Nat) : Bool × Bool :=
  if strFalsy token then (false, false)
  else if status = 204 then (true, true)
  else (false, true)

/-- The body of the folder scan of `get_folder_id` (lines 93-96): on a display
name match overwrite the accumulator with the folder's id (the loop does not
break, so a later match overwrites an earlier one), otherwise keep it. -/
def folderStep (target : String) (acc : Option String) (f : Folder) : Option String :=
  if f.displayName = target then some f.id else acc

/-- The folder scan of `get_folder_id`: fold `folderStep` over the listed
folders starting from `folder_id = None`. -/
def scanFolders (target : String) (folders : List Folder) : Option String :=
  folders.foldl (folderStep target) none

/-- The part of `get_folder_id` after the `self.get_token()` call, on the
post-refresh state `s1`: return unchanged when the token is falsy or a folder
id is already cached (`if not self._token or self._folder_id: return`),
otherwise scan the listing of `api_get_request`. When that call returns `None`
(non-200 status), the source's `for folder in self.api_get_request(endpoint)`
raises a `TypeError`, modelled as `Except.error`. -/
def get_folder_id_scan (env : Env) (s1 : GraphState) : Except String GraphState :=
  if strFalsy s1.token || !(strFalsy s1.folderId) then Except.ok s1
  else
    match (api_get_request s1.token env.foldersResp).1 with
    | none => Except.error "TypeError: argument of type NoneType is not iterable"
    | some folders =>
      Except.ok { s1 with folderId := scanFolders s1.mailbox_folder folders }

/-- `get_folder_id` (lines 86-97): refresh the token via `get_token`, then run
the folder scan on the resulting state. -/
def get_folder_id (env : Env) (now : Int) (s : GraphState) : Except String GraphState :=
  get_folder_id_scan env (get_token env.tokenResp now s).1

/-- Python `dict` assignment `processed_items[id] = xml` on an association
list: overwrite an existing binding for the key, else append. -/
def dictInsert (m : List (String × List Nat)) (k : String) (v : List Nat) :
    List (String × List Nat) :=
  if m.any (fun p => decide (p.1 = k)) then
    m.map (fun p => if p.1 = k then (k, v) else p)
  else m ++ [(k, v)]

/-- The per-message body of the loop in `process_dmarc_mail_items`
(lines 137-152): fetch the message's attachments; the walrus guard
`(attachments := ...) and (attachment := attachments[0])` skips the message
when the listing is `None` or empty (an attachment record itself is a
non-empty dict, hence truthy); otherwise decode the first attachment and store
the result under the message id only when the decoded bytes are truthy
(non-empty). -/
def process_item (token : Option String) (gz : List Nat → Option (List Nat))
    (zp : List Nat → Option (List ZipEntry)) (attResp : Nat × List Attachment)
    (acc : List (String × List Nat)) (msgId : String) : List (String × List Nat) :=
  match (api_get_request token attResp).1 with
  | none => acc
  | some [] => acc
  | some (attachment :: _) =>
    match get_dmarc_xml gz zp attachment with
    | none => acc
    | some xml => if xml = [] then acc else dictInsert acc msgId xml

/-- `process_dmarc_mail_items` (lines 99-155): resolve the folder id, list the
folder's messages, and fold `process_item` over them. When the message-listing
call returns `None` (non-200 status), the source's
`for item in self.api_get_request(endpoint)` raises a `TypeError`, modelled as
`Except.error`. -/
def process_dmarc_mail_items (env : Env) (now : Int) (s : GraphState) :
    Except String (GraphState × List (String × List Nat)) :=
  match get_folder_id env now s with
  | Except.error e => Except.error e
  | Except.ok s1 =>
    match (api_get_request s1.token env.messagesResp).1 with
    | none => Except.error "TypeError: argument of type NoneType is not iterable"
    | some msgs =>
      Except.ok (s1, msgs.foldl
        (fun acc item =>
          process_item s1.token env.gz env.zp (env.attachmentsResp item.id) acc item.id)
        [])

/-- `delete_mail_items` (lines 157-163): for each id in order, issue a DELETE
and (in the source) log on failure; no failure stops the loop or raises. The
result records each attempted id together with its `api_delete_request`
outcome. -/
def delete_mail_items (token : Option String) (delStatus : String → Nat)
    (items : List String) : List (String × Bool) :=
  items.map (fun i => (i, (api_delete_request token (delStatus i)).1))

/-- The environment of the transport-failure scenario: the token endpoint
succeeds, the folder listing succeeds with a matching folder, but the
message-listing endpoint answers HTTP 500. -/
def envMsgFail : Env where
  tokenResp := some ("tok", 3600)
  foldersResp := (200, [{ displayName := "Inbox", id := "fid1" }])
  messagesResp := (500, [])
  attachmentsResp := fun _ => (200, [])
  gz := fun _ => none
  zp := fun _ => none
  delStatus := fun _ => 204

/-! Helper lemmas about `splitDot`. -/

theorem splitDot_ne_nil : ∀ n : List Char, splitDot n ≠ []
  | [] => by simp [splitDot]
  | c :: cs => by
    simp only [splitDot]
    by_cases h : c = '.'
    · simp [h]
    · simp only [if_neg h]
      cases hs : splitDot cs <;> simp

theorem splitDot_no_dot : ∀ n : List Char, '.' ∉ n → splitDot n = [n]
  | [], _ => rfl
  | c :: cs, h => by
    have hc : ¬c = '.' := by
      intro hc
      exact h (by rw [hc]; exact List.mem_cons_self _ _)
    have hcs : '.' ∉ cs := fun hm => h (List.mem_cons_of_mem _ hm)
    simp only [splitDot, if_neg hc, splitDot_no_dot cs hcs]

theorem two_le_splitDot_length : ∀ n : List Char, '.' ∈ n → 2 ≤ (splitDot n).length
  | [], h => absurd h (List.not_mem_nil _)
  | c :: cs, h => by
    by_cases hc : c = '.'
    · simp only [splitDot, if_pos hc, List.length_cons]
      have h1 : 1 ≤ (splitDot cs).length := by
        cases hs : splitDot cs
        · exact absurd hs (splitDot_ne_nil cs)
        · simp
      omega
    · have hcs : '.' ∈ cs := by
        rcases List.mem_cons.mp h with h1 | h2
        · exact absurd h1.symm hc
        · exact h2
      simp only [splitDot, if_neg hc]
      cases hs : splitDot cs with
      | nil => exact absurd hs (splitDot_ne_nil cs)
      | cons a t =>
        have ih := two_le_splitDot_length cs hcs
        rw [hs] at ih
        simpa using ih

theorem getLastD_of_ne_nil {α : Type} {l : List α} (h : l ≠ []) (d d' : α) :
    l.getLastD d = l.getLastD d' := by
  cases l with
  | nil => exact absurd rfl h
  | cons a t => rw [List.getLastD_cons, List.getLastD_cons]

theorem splitDot_getLastD_append (pre post : List Char) (hpost : '.' ∉ post) :
    (splitDot (pre ++ '.' :: post)).getLastD [] = post := by
  induction pre with
  | nil =>
    rw [List.nil_append]
    show ([] :: splitDot post).getLastD [] = post
    rw [List.getLastD_cons, splitDot_no_dot post hpost, List.getLastD_cons]
    rfl
  | cons c pr ih =>
    rw [List.cons_append]
    by_cases hc : c = '.'
    · simp only [splitDot, if_pos hc]
      rw [List.getLastD_cons]
      exact ih
    · simp only [splitDot, if_neg hc]
      cases hs : splitDot (pr ++ '.' :: post) with
      | nil => exact absurd hs (splitDot_ne_nil _)
      | cons a t =>
        have htne : t ≠ [] := by
          have h2 := two_le_splitDot_length (pr ++ '.' :: post) (by simp)
          rw [hs] at h2
          intro ht
          rw [ht] at h2
          simp at h2
        show ((c :: a) :: t).getLastD [] = post
        rw [List.getLastD_cons, getLastD_of_ne_nil htne (c :: a) a]
        have hih := ih
        rw [hs, List.getLastD_cons] at hih
        exact hih

/-! Helper lemmas about the folder scan. -/

theorem foldl_folderStep_no_match (target : String) :
    ∀ (l : List Folder) (acc : Option String), (∀ g ∈ l, g.displayName ≠ target) →
      l.foldl (folderStep target) acc = acc
  | [], _, _ => rfl
  | g :: t, acc, h => by
    rw [List.foldl_cons]
    have hg : folderStep target acc g = acc := if_neg (h g (List.mem_cons_self g t))
    rw [hg]
    exact foldl_folderStep_no_match target t acc fun x hx => h x (List.mem_cons_of_mem _ hx)

theorem scanFolders_last_match (target : String) (l1 l2 : List Folder) (f : Folder)
    (hf : f.displayName = target) (h2 : ∀ g ∈ l2, g.displayName ≠ target) :
    scanFolders target (l1 ++ f :: l2) = some f.id := by
  unfold scanFolders
  rw [List.foldl_append, List.foldl_cons]
  have hstep : folderStep target (l1.foldl (folderStep target) none) f = some f.id := if_pos hf
  rw [hstep]
  exact foldl_folderStep_no_match target l2 (some f.id) h2

theorem get_folder_id_scan_fresh (env : Env) (s1 : GraphState) (folders : List Folder)
    (ht : strFalsy s1.token = false) (hfid : s1.folderId = none)
    (hfold : env.foldersResp = (200, folders)) :
    get_folder_id_scan env s1
      = Except.ok { s1 with folderId := scanFolders s1.mailbox_folder folders } := by
  have e3 : (api_get_request s1.token env.foldersResp).1 = some folders := by
    unfold api_get_request
    rw [ht, hfold]
    rfl
  unfold get_folder_id_scan
  rw [ht, hfid, e3]
  rfl

/-- C1: an attachment whose declared content type is `"application/gzip"` or
whose extension is `"gz"` or `"gzip"` (either signal alone suffices, the
disjunction being the hypothesis), whose raw payload is a valid gzip stream
(the `gzip.decompress` oracle succeeds with `out`), decodes to exactly the
decompressed bytes `out`. -/
theorem gzip_signal_returns_decompressed (gz : List Nat → Option (List Nat))
    (zp : List Nat → Option (List ZipEntry)) (a : Attachment) (out : List Nat)
    (hsig : a.contentType = "application/gzip" ∨ get_extention a.name = some ['g', 'z']
      ∨ get_extention a.name = some ['g', 'z', 'i', 'p'])
    (hgz : gz a.raw = some out) :
    get_dmarc_xml gz zp a = some out := by
  unfold get_dmarc_xml
  rw [if_pos hsig, hgz]

theorem gzip_signal_returns_decompressed_witness :
    get_dmarc_xml (fun _ => some [9]) (fun _ => none)
      { name := some ['r', '.', 'g', 'z'], contentType := "application/octet-stream",
        raw := [1, 2] } = some [9] :=
  gzip_signal_returns_decompressed _ _ _ _ (Or.inr (Or.inl (by decide))) rfl

/-- C2: for an attachment classified as zip (the zip signal holds and the gzip
signal does not, per the source's `elif`): an empty archive listing decodes to
`None`; otherwise only the first listed entry is considered — its contents are
returned exactly when its extension is `"xml"`, and `None` results otherwise
even when a later entry has an `"xml"` extension (the later entries `rest` are
arbitrary). -/
theorem zip_first_entry_policy (gz : List Nat → Option (List Nat))
    (zp : List Nat → Option (List ZipEntry)) (a : Attachment)
    (hngz : ¬(a.contentType = "application/gzip" ∨ get_extention a.name = some ['g', 'z']
      ∨ get_extention a.name = some ['g', 'z', 'i', 'p']))
    (hzip : a.contentType = "application/zip" ∨ get_extention a.name = some ['z', 'i', 'p']) :
    (zp a.raw = some [] → get_dmarc_xml gz zp a = none)
    ∧ (∀ f rest, zp a.raw = some (f :: rest) →
        (get_extention (some f.filename) = some ['x', 'm', 'l'] →
          get_dmarc_xml gz zp a = some f.content)
        ∧ (get_extention (some f.filename) ≠ some ['x', 'm', 'l'] →
          get_dmarc_xml gz zp a = none)) := by
  refine ⟨?_, fun f rest h => ⟨?_, ?_⟩⟩
  · intro h
    unfold get_dmarc_xml
    rw [if_neg hngz, if_pos hzip, h]
  · intro hx
    unfold get_dmarc_xml
    rw [if_neg hngz, if_pos hzip, h]
    show (if get_extention (some f.filename) = some ['x', 'm', 'l']
        then zipRead (f :: rest) f.filename else none) = some f.content
    rw [if_pos hx]
    simp [zipRead]
  · intro hx
    unfold get_dmarc_xml
    rw [if_neg hngz, if_pos hzip, h]
    show (if get_extention (some f.filename) = some ['x', 'm', 'l']
        then zipRead (f :: rest) f.filename else none) = none
    rw [if_neg hx]

theorem zip_first_entry_policy_witness :
    get_dmarc_xml (fun _ => none)
      (fun _ => some [{ filename := ['a', '.', 'x', 'm', 'l'], content := [7] },
                      { filename := ['b', '.', 'x', 'm', 'l'], content := [8] }])
      { name := some ['r', '.', 'z', 'i', 'p'], contentType := "application/zip",
        raw := [0] } = some [7] :=
  ((zip_first_entry_policy _ _ _ (by decide) (Or.inl rfl)).2
    { filename := ['a', '.', 'x', 'm', 'l'], content := [7] }
    [{ filename := ['b', '.', 'x', 'm', 'l'], content := [8] }] rfl).1 (by decide)

/-- C3 counterexample: the claim asserts that a filename with no `'.'` yields
an absent extension that can match no format signal; but `get_extention` on
the dot-less name `"gz"` yields `"gz"` itself (Python `split` returns the whole
string), and such an attachment is routed to the gzip branch even with a
non-gzip content type. -/
theorem get_extention_dotless_counterexample :
    get_extention (some ['g', 'z']) = some ['g', 'z']
    ∧ get_dmarc_xml (fun _ => some [5]) (fun _ => none)
        { name := some ['g', 'z'], contentType := "text/plain", raw := [] } = some [5] :=
  ⟨rfl, by decide⟩

/-- C3 (amended): the extension is absent when the filename is absent; it is
the substring after the last `'.'` when the filename contains a dot (here
`pre ++ '.' :: post` with `post` dot-free, so the shown dot is the last one);
and it is the ENTIRE filename when the filename contains no dot at all. -/
theorem get_extention_after_last_dot (pre post n : List Char)
    (hpost : '.' ∉ post) (hn : '.' ∉ n) :
    get_extention none = none
    ∧ get_extention (some (pre ++ '.' :: post)) = some post
    ∧ get_extention (some n) = some n := by
  refine ⟨rfl, ?_, ?_⟩
  · show some ((splitDot (pre ++ '.' :: post)).getLastD []) = some post
    rw [splitDot_getLastD_append pre post hpost]
  · show some ((splitDot n).getLastD []) = some n
    rw [splitDot_no_dot n hn, List.getLastD_cons]
    rfl

theorem get_extention_after_last_dot_witness :
    get_extention none = none
    ∧ get_extention (some (['a'] ++ '.' :: ['g', 'z'])) = some ['g', 'z']
    ∧ get_extention (some ['n', 'o', 'd', 'o', 't']) = some ['n', 'o', 'd', 'o', 't'] :=
  get_extention_after_last_dot ['a'] ['g', 'z'] ['n', 'o', 'd', 'o', 't']
    (by decide) (by decide)

/-- C4: the refresh condition on line 63 reads
`self._token_expires + timedelta(seconds=300) > datetime.now()`, which is
inverted. Acquiring a token at time 0 with `expires_in = 3600` issues one
request; a second token-dependent call at time 10 — well inside the validity
window (more than 300 seconds before the expiry 3600) — issues a SECOND
request instead of reusing the cached token; a call at time 4000, after
expiry, issues NO refresh at all. The claim (one request total within the
window, one refresh after expiry) is what the spec's safety-margin invariant
dictates; the code does the opposite. -/
theorem get_token_inverted_refresh_condition :
    (get_token (some ("t1", 3600)) 0
      { token := none, tokenExpires := none, folderId := none,
        mailbox_folder := "f" }).2 = 1
    ∧ (get_token (some ("t2", 3600)) 10
      { token := some "t1", tokenExpires := some 3600, folderId := none,
        mailbox_folder := "f" }).2 = 1
    ∧ (get_token (some ("t2", 3600)) 4000
      { token := some "t1", tokenExpires := some 3600, folderId := none,
        mailbox_folder := "f" }).2 = 0 :=
  ⟨rfl, rfl, rfl⟩

/-- C5: a non-success HTTP status on the message-listing call does NOT leave
`process_dmarc_mail_items` returning normally: `api_get_request` returns
`None` and the source's `for item in self.api_get_request(endpoint)` raises a
`TypeError`. In `envMsgFail` authentication and folder resolution succeed and
the message listing answers HTTP 500; the orchestrator aborts with the
exception instead of treating it as "no data". -/
theorem process_raises_on_message_listing_failure :
    process_dmarc_mail_items envMsgFail 0
      { token := none, tokenExpires := none, folderId := none, mailbox_folder := "Inbox" }
      = Except.error "TypeError: argument of type NoneType is not iterable" := by
  rfl

/-- C6: a payload matching the gzip signal on which `gzip.decompress` raises
(the oracle yields `none`), or matching the zip signal (and not the gzip one)
on which `ZipFile` parsing raises, decodes to `None`: the source catches the
exception, and the decoder — a total function here — never propagates one. -/
theorem decoder_fails_closed (gz : List Nat → Option (List Nat))
    (zp : List Nat → Option (List ZipEntry)) (a : Attachment) :
    ((a.contentType = "application/gzip" ∨ get_extention a.name = some ['g', 'z']
        ∨ get_extention a.name = some ['g', 'z', 'i', 'p']) →
      gz a.raw = none → get_dmarc_xml gz zp a = none)
    ∧ (¬(a.contentType = "application/gzip" ∨ get_extention a.name = some ['g', 'z']
        ∨ get_extention a.name = some ['g', 'z', 'i', 'p']) →
      (a.contentType = "application/zip" ∨ get_extention a.name = some ['z', 'i', 'p']) →
      zp a.raw = none → get_dmarc_xml gz zp a = none) := by
  constructor
  · intro hsig hg
    unfold get_dmarc_xml
    rw [if_pos hsig, hg]
  · intro hngz hzip hz
    unfold get_dmarc_xml
    rw [if_neg hngz, if_pos hzip, hz]

theorem decoder_fails_closed_witness :
    get_dmarc_xml (fun _ => none) (fun _ => none)
      { name := some ['r', '.', 'g', 'z'], contentType := "x", raw := [1] } = none
    ∧ get_dmarc_xml (fun _ => none) (fun _ => none)
      { name := some ['r', '.', 'z', 'i', 'p'], contentType := "x", raw := [1] } = none :=
  ⟨(decoder_fails_closed _ _ _).1 (by decide) rfl,
   (decoder_fails_closed _ _ _).2 (by decide) (by decide) rfl⟩

/-- C7: folder resolution matches by exact display-name equality against the
configured target. Starting from a fresh state (no token, no cached folder id)
with a successful token response and a listing `l1 ++ f :: l2` in which `f`
matches and nothing after it does (`l1` is arbitrary, so earlier matches —
duplicates included — are overwritten: the scan does not short-circuit),
`get_folder_id` stores exactly `f`'s identifier; and on a listing `l` with no
matching name the scan yields no folder id. -/
theorem folder_resolution (env : Env) (now : Int) (te : Option Int) (target : String)
    (tok : String) (d : Int) (l1 l2 l : List Folder) (f : Folder)
    (htr : env.tokenResp = some (tok, d)) (htok : tok ≠ "")
    (hfold : env.foldersResp = (200, l1 ++ f :: l2))
    (hf : f.displayName = target)
    (h2 : ∀ g ∈ l2, g.displayName ≠ target)
    (hl : ∀ g ∈ l, g.displayName ≠ target) :
    get_folder_id env now
      { token := none, tokenExpires := te, folderId := none, mailbox_folder := target }
      = Except.ok { token := some tok, tokenExpires := some (now + d),
                    folderId := some f.id, mailbox_folder := target }
    ∧ scanFolders target l = none := by
  constructor
  · have e1 : (get_token (some (tok, d)) now
        { token := none, tokenExpires := te, folderId := none,
          mailbox_folder := target }).1
        = { token := some tok, tokenExpires := some (now + d), folderId := none,
            mailbox_folder := target } := rfl
    have ht : strFalsy (some tok) = false := decide_eq_false htok
    unfold get_folder_id
    rw [htr, e1]
    rw [get_folder_id_scan_fresh env
      { token := some tok, tokenExpires := some (now + d), folderId := none,
        mailbox_folder := target } (l1 ++ f :: l2) ht rfl hfold]
    show (Except.ok { token := some tok, tokenExpires := some (now + d),
                      folderId := scanFolders target (l1 ++ f :: l2),
                      mailbox_folder := target } : Except String GraphState)
      = Except.ok { token := some tok, tokenExpires := some (now + d),
                    folderId := some f.id, mailbox_folder := target }
    rw [scanFolders_last_match target l1 l2 f hf h2]
  · unfold scanFolders
    exact foldl_folderStep_no_match target l none hl

theorem folder_resolution_witness :
    get_folder_id
      { tokenResp := some ("t", 10),
        foldersResp := (200,
          [{ displayName := "Inbox", id := "f0" }, { displayName := "Inbox", id := "f1" },
           { displayName := "Other", id := "f2" }]),
        messagesResp := (200, []), attachmentsResp := fun _ => (200, []),
        gz := fun _ => none, zp := fun _ => none, delStatus := fun _ => 204 } 0
      { token := none, tokenExpires := none, folderId := none, mailbox_folder := "Inbox" }
      = Except.ok { token := some "t", tokenExpires := some 10, folderId := some "f1",
                    mailbox_folder := "Inbox" }
    ∧ scanFolders "Inbox" [{ displayName := "Other", id := "f2" }] = none :=
  folder_resolution _ 0 none "Inbox" "t" 10
    [{ displayName := "Inbox", id := "f0" }]
    [{ displayName := "Other", id := "f2" }]
    [{ displayName := "Other", id := "f2" }]
    { displayName := "Inbox", id := "f1" }
    rfl (by decide) rfl rfl (by decide) (by decide)

/-- C8: with a falsy token (absent, or the empty string), both request paths
fail closed: the GET path returns `None` and the DELETE path returns `False`,
and in both cases the second component — whether an HTTP request was issued —
is `false`. -/
theorem requests_fail_closed_without_token {α : Type} (token : Option String)
    (h : strFalsy token = true) (resp : Nat × α) (status : Nat) :
    api_get_request token resp = (none, false)
    ∧ api_delete_request token status = (false, false) := by
  constructor
  · unfold api_get_request
    rw [h]
    rfl
  · unfold api_delete_request
    rw [h]
    rfl

theorem requests_fail_closed_without_token_witness :
    api_get_request none ((200 : Nat), (0 : Nat)) = (none, false)
    ∧ api_delete_request none 204 = (false, false) :=
  requests_fail_closed_without_token none rfl (200, 0) 204

/-- C9: `delete_mail_items` on the key list of a result mapping `m` attempts a
deletion for exactly those identifiers, in order — the attempted-id list
equals `m.map Prod.fst` and has `m`'s length for EVERY response function
`delStatus`, so a non-204 (failed) deletion for one identifier never prevents
the attempts for the remaining ones, and the loop never raises (it is a total
function of the responses). -/
theorem deletion_attempts_every_processed_id (token : Option String)
    (delStatus : String → Nat) (m : List (String × List Nat)) :
    (delete_mail_items token delStatus (m.map Prod.fst)).map Prod.fst = m.map Prod.fst
    ∧ (delete_mail_items token delStatus (m.map Prod.fst)).length = m.length := by
  constructor
  · simp [delete_mail_items]
  · simp [delete_mail_items]

theorem deletion_attempts_every_processed_id_witness :
    (delete_mail_items (some "t") (fun i => if i = "m1" then 404 else 204)
      ([("m1", [1]), ("m2", [2])].map Prod.fst)).map Prod.fst = ["m1", "m2"]
    ∧ (delete_mail_items (some "t") (fun i => if i = "m1" then 404 else 204)
      ([("m1", [1]), ("m2", [2])].map Prod.fst)).length = 2 :=
  deletion_attempts_every_processed_id (some "t") _ [("m1", [1]), ("m2", [2])]

/-- C10: a message whose attachment listing succeeds with a first attachment
that decodes successfully but to the EMPTY byte sequence is excluded from the
result mapping: the per-message step leaves the accumulator unchanged, because
inclusion is guarded by the truthiness test `if xml_data:` rather than by
decode success. -/
theorem empty_decoded_bytes_excluded (token : Option String)
    (gz : List Nat → Option (List Nat)) (zp : List Nat → Option (List ZipEntry))
    (attResp : Nat × List Attachment) (acc : List (String × List Nat)) (msgId : String)
    (att : Attachment) (rest : List Attachment)
    (hatt : (api_get_request token attResp).1 = some (att :: rest))
    (hdec : get_dmarc_xml gz zp att = some []) :
    process_item token gz zp attResp acc msgId = acc := by
  unfold process_item
  rw [hatt]
  show (match get_dmarc_xml gz zp att with
    | none => acc
    | some xml => if xml = [] then acc else dictInsert acc msgId xml) = acc
  rw [hdec]
  rfl

theorem empty_decoded_bytes_excluded_witness :
    process_item (some "t") (fun _ => some []) (fun _ => none)
      (200, [{ name := some ['r', '.', 'g', 'z'], contentType := "application/gzip",
               raw := [3] }]) [] "m1" = [] :=
  empty_decoded_bytes_excluded (some "t") _ _ _ [] "m1"
    { name := some ['r', '.', 'g', 'z'], contentType := "application/gzip", raw := [3] }
    [] rfl rfl

end GraphDmarc
